import Mathlib

/-
Verification development for `src/scripts/fix-broken-links.py`
(`DocumentationLinkFixer`): a shallow embedding of the link scanner,
classifier and remediation pipeline, followed by theorems settling the
specification claims.

Modelling conventions:
* A `pathlib.Path` value is its list of components (`PyPath`).  `Path`
  construction drops empty components and `"."` components and does not
  normalise `".."`; this is mirrored by `parseParts`/`joinStr`.
* The filesystem is a finite map from normalised component lists to file
  contents, plus a list of directories created by `mkdir`.  The operating
  system resolves `".."` when a path is accessed, which is mirrored by
  `normalizeParts` inside `pathExists`/`readFS`/`writeFS`.
* `re.findall`/`re.sub` over the fixed pattern
  `\[([^\]]*)\]\(([^)]+)\)` are mirrored by the executable scanners
  `findLinks`/`replaceLinks` (leftmost, non-overlapping matches; on a
  failed match attempt the scan restarts one character later).
-/

set_option autoImplicit false
set_option maxRecDepth 10000

namespace FixBrokenLinks

/-- A `pathlib.Path` value, represented by its list of components.
`Path` construction drops empty and `"."` segments but keeps `".."`
segments un-normalised, exactly as `pathlib` does. -/
structure PyPath where
  parts : List String
deriving DecidableEq, Repr

/-- Split a character list on a separator character (the semantics of
Python `str.split(sep)` for a one-character separator, and of
`String.splitOn`; implemented structurally so that the kernel can
evaluate it). -/
def chSplit (sep : Char) : List Char → List (List Char)
  | [] => [[]]
  | c :: cs =>
      match chSplit sep cs with
      | [] => [[c]]
      | h :: t => if c == sep then [] :: h :: t else (c :: h) :: t

/-- `pre` is a prefix of `s` (Python `str.startswith`). -/
def startsWithStr (s pre : String) : Bool := pre.data.isPrefixOf s.data

/-- `suf` is a suffix of `s` (Python `str.endswith`). -/
def endsWithStr (s suf : String) : Bool := suf.data.isSuffixOf s.data

/-- `s[n:]` (drop the first `n` characters). -/
def dropStr (s : String) (n : Nat) : String := String.mk (s.data.drop n)

/-- Decimal digits of a natural number (`fuel`-bounded structural
recursion; `fuel = n + 1` always suffices since `n / 10 < n`). -/
def natDigits : Nat → Nat → List Char
  | 0, _ => []
  | _ + 1, n =>
      if n < 10 then [Char.ofNat (48 + n)]
      else natDigits n (n / 10) ++ [Char.ofNat (48 + n % 10)]

/-- Python `str(n)` for a natural number. -/
def natToStr (n : Nat) : String := String.mk (natDigits (n + 1) n)

/-- Python whitespace (the characters removed by `str.strip()`). -/
def isPySpace (c : Char) : Bool :=
  c == (' ') || c == ('\t') || c == ('\n') || c == ('\r') || c == ('\x0b') || c == ('\x0c')

/-- Python `str.strip()`. -/
def trimStr (s : String) : String :=
  String.mk (((s.data.dropWhile isPySpace).reverse.dropWhile isPySpace).reverse)

/-- `String.intercalate`, structurally. -/
def intercalateStr (sep : String) (l : List String) : String :=
  String.mk (List.intercalate sep.data (l.map String.data))

/-- Component split performed by `pathlib` when a string is turned into a
path: split on `/`, drop empty and `"."` segments. -/
def parseParts (s : String) : List String :=
  ((chSplit ('/') s.data).map (fun l => String.mk l)).filter
    (fun c => !(c == "") && !(c == "."))

/-- `Path(s)`. -/
def parsePath (s : String) : PyPath := ⟨parseParts s⟩

/-- `str(path)`. -/
def pathStr (p : PyPath) : String := intercalateStr ("/") p.parts

/-- `path.parent`: drop the last component (purely lexical, as in
`pathlib`). -/
def parentPath (p : PyPath) : PyPath := ⟨p.parts.dropLast⟩

/-- `path.name`: the final component (empty for an empty path). -/
def lastName (p : PyPath) : String := (p.parts.getLast?).getD ("")

/-- `path / s`: join a (possibly multi-segment) string onto a path.  An
absolute argument replaces the path, as in `pathlib`. -/
def joinStr (p : PyPath) (s : String) : PyPath :=
  if startsWithStr s ("/") then ⟨parseParts s⟩ else ⟨p.parts ++ parseParts s⟩

/-- Index of the last `'.'` in a list of characters, if any. -/
def lastDotIdx (l : List Char) : Option Nat :=
  ((l.enum.filter (fun q => q.2 == ('.'))).map (fun q => q.1)).getLast?

/-- `path.suffix` (computed from the final component `name`): the part of
`name` from its last dot on, provided that dot is neither the first nor the
last character; otherwise the empty string.  This is `pathlib`'s rule. -/
def pySuffix (name : String) : String :=
  match lastDotIdx name.toList with
  | none => ""
  | some i =>
      if 0 < i && i + 1 < name.toList.length
      then String.mk (name.toList.drop i) else ""

/-- `path.stem`: the final component with its suffix removed. -/
def pyStem (name : String) : String :=
  let suf := pySuffix name
  if suf == "" then name
  else String.mk (name.toList.take (name.toList.length - suf.toList.length))

/-- `path.with_suffix('.md')`: replace the suffix of the final component
(or append `.md` when the component has no suffix).  `pathlib` raises when
the name is empty; that corner is unreachable in the places the script
calls it (the empty path always exists as the filesystem root), and the
model returns `⟨[".md"]⟩`-style junk there instead. -/
def pyWithSuffixMd (p : PyPath) : PyPath :=
  let newName := pyStem (lastName p) ++ ".md"
  ⟨p.parts.dropLast ++ [newName]⟩

/-- Helper for `str.title()`: the `Bool` tracks whether the previous
character was cased (a letter). -/
def pyTitleGo : Bool → List Char → List Char
  | _, [] => []
  | prev, c :: cs =>
      if c.isAlpha then (if prev then c.toLower else c.toUpper) :: pyTitleGo true cs
      else c :: pyTitleGo false cs

/-- Python `str.title()` (ASCII casing, which is all the script's inputs
use). -/
def pyTitle (s : String) : String := String.mk (pyTitleGo false s.toList)

/-- Python `str.lower()` (ASCII casing). -/
def pyLower (s : String) : String := String.mk (s.data.map Char.toLower)

/-- Python `str.replace(a, b)` for one-character `a`/`b` (all the
script's uses). -/
def replaceChar (s : String) (a b : Char) : String :=
  String.mk (s.data.map (fun c => if c == a then b else c))

/-- Structural substring search. -/
def containsList (pat : List Char) : List Char → Bool
  | [] => pat.isEmpty
  | c :: cs => pat.isPrefixOf (c :: cs) || containsList pat cs

/-- Python's substring test `pat in s`. -/
def containsSub (s pat : String) : Bool := containsList pat.data s.data

/-- Lexical `..`-elimination performed by the operating system when a path
is accessed (`".."` above the root stays at the root). -/
def normalizeParts (l : List String) : List String :=
  l.foldl (fun acc c =>
    if c == ".." then acc.dropLast else if c == "." then acc else acc ++ [c]) []

/-- The filesystem: files (normalised path, content) and directories
explicitly created by `mkdir`.  Ancestor directories of any entry are
considered to exist. -/
structure FS where
  files : List (List String × String)
  dirs : List (List String)
deriving DecidableEq, Repr

/-- Read a file's content (`open(p).read()`), `none` when absent. -/
def readFS (fs : FS) (p : PyPath) : Option String :=
  ((fs.files.filter (fun f => f.1 == normalizeParts p.parts)).head?).map (fun f => f.2)

/-- Insert-or-overwrite a file keyed by normalised path. -/
def setFileKey (l : List (List String × String)) (k : List String) (c : String) :
    List (List String × String) :=
  if l.any (fun f => f.1 == k) then l.map (fun f => if f.1 == k then (k, c) else f)
  else l ++ [(k, c)]

/-- `open(p, 'w').write(c)`. -/
def writeFS (fs : FS) (p : PyPath) (c : String) : FS :=
  { fs with files := setFileKey fs.files (normalizeParts p.parts) c }

/-- `p.exists()`: the root always exists; otherwise the normalised path
must be a file, a created directory, or a proper ancestor of one. -/
def pathExists (fs : FS) (p : PyPath) : Bool :=
  let n := normalizeParts p.parts
  n.isEmpty || fs.files.any (fun f => f.1 == n) || fs.dirs.any (fun d => d == n)
    || fs.files.any (fun f => n.isPrefixOf f.1 && !(f.1 == n))
    || fs.dirs.any (fun d => n.isPrefixOf d && !(d == n))

/-- `p.mkdir(parents=True, exist_ok=True)`: record the directory when it
does not already exist (ancestors then exist via the prefix rule). -/
def mkdirP (fs : FS) (p : PyPath) : FS :=
  if pathExists fs p then fs else { fs with dirs := fs.dirs ++ [normalizeParts p.parts] }

/-- Split a character list at the first occurrence of `c`: returns the
part before (which does not contain `c`) and the part after. -/
def splitAtChar (c : Char) : List Char → Option (List Char × List Char)
  | [] => none
  | x :: xs =>
      if x == c then some ([], xs)
      else (splitAtChar c xs).map (fun q => (x :: q.1, q.2))

theorem splitAtChar_snd_lt (c : Char) :
    ∀ (l a b : List Char), splitAtChar c l = some (a, b) → b.length < l.length := by
  intro l
  induction l with
  | nil => intro a b h; simp [splitAtChar] at h
  | cons x xs ih =>
      intro a b h
      simp only [splitAtChar] at h
      split at h
      · injection h with h2
        injection h2 with h3 h4
        subst h4
        rw [List.length_cons]
        exact Nat.lt_succ_self _
      · rcases Option.map_eq_some'.mp h with ⟨q, hq, hfq⟩
        cases hfq
        have hlt := ih q.1 q.2 (by simpa using hq)
        rw [List.length_cons]
        omega

/-- One attempt of the pattern `\[([^\]]*)\]\(([^)]+)\)` at a position
whose `[` has just been consumed (`rest` is the text after the `[`):
the display text is the run of non-`]` characters up to the first `]`,
which must be followed by `(`, a non-empty run of non-`)` characters,
and `)`.  On success, returns the two capture groups and the remaining
text after the match. -/
def tryLinkAt (rest : List Char) : Option (String × String × List Char) :=
  match splitAtChar (']') rest with
  | none => none
  | some q =>
      match q.2 with
      | [] => none
      | c2 :: afterPar =>
          if c2 == ('(') then
            match splitAtChar (')') afterPar with
            | none => none
            | some r =>
                if r.1.isEmpty then none
                else some (String.mk q.1, String.mk r.1, r.2)
          else none

theorem tryLinkAt_rem_lt :
    ∀ (rest : List Char) (t u : String) (rem : List Char),
      tryLinkAt rest = some (t, u, rem) → rem.length < rest.length := by
  intro rest t u rem h
  cases hq : splitAtChar (']') rest with
  | none => simp [tryLinkAt, hq] at h
  | some q =>
      cases hq2 : q.2 with
      | nil => simp [tryLinkAt, hq, hq2] at h
      | cons c2 afterPar =>
          by_cases hc2 : (c2 == ('(')) = true
          · cases hr : splitAtChar (')') afterPar with
            | none => simp [tryLinkAt, hq, hq2, hc2, hr] at h
            | some r =>
                by_cases he : r.1.isEmpty = true
                · simp [tryLinkAt, hq, hq2, hc2, hr, he] at h
                · simp [tryLinkAt, hq, hq2, hc2, hr, he] at h
                  have h1 := splitAtChar_snd_lt (']') rest q.1 q.2 (by simpa using hq)
                  have h2 := splitAtChar_snd_lt (')') afterPar r.1 r.2 (by simpa using hr)
                  have h3 : q.2.length = afterPar.length + 1 := by
                    rw [hq2]; rfl
                  have h4 : rem = r.2 := h.2.2.symm
                  rw [h4]
                  omega
          · simp [tryLinkAt, hq, hq2, hc2] at h

/-- Fuel-bounded scanner loop (structural recursion, so that the kernel
can evaluate it; by `tryLinkAt_rem_lt` every recursive call shrinks the
text, so `fuel = length` never runs out). -/
def findLinksAux : Nat → List Char → List (String × String)
  | 0, _ => []
  | fuel + 1, l =>
      match l with
      | [] => []
      | c :: rest =>
          if c == ('[') then
            match tryLinkAt rest with
            | some (t, u, rem) => (t, u) :: findLinksAux fuel rem
            | none => findLinksAux fuel rest
          else findLinksAux fuel rest

/-- The link pattern scan `re.findall(r'\[([^\]]*)\]\(([^)]+)\)', content)`:
leftmost non-overlapping matches.  A failed match attempt makes the scan
restart one character after the `[`; a successful one resumes after the
closing `)`. -/
def findLinks (l : List Char) : List (String × String) := findLinksAux l.length l

/-- `_resolve_link_path`: resolve a relative link target against the
source document's directory.  The source wraps the body in
`try/except` returning `None` on exception, but the body is pure path
arithmetic that cannot raise, so the `none` branch below is never
produced. -/
def resolve_link_path (mdFile : PyPath) (url : String) : Option PyPath :=
  if startsWithStr url ("./") then some (joinStr (parentPath mdFile) (dropStr url 2))
  else if startsWithStr url ("../") then some (joinStr (parentPath mdFile) url)
  else some (joinStr (parentPath mdFile) url)

/-- `str(md_file.relative_to(self.docs_dir))` for a file under the docs
root. -/
def relStr (md docs : PyPath) : String :=
  intercalateStr ("/") (md.parts.drop docs.parts.length)

/-- Search loop of `_get_line_context`: first line containing `url` as a
substring. -/
def lineContextAux (url : String) : Nat → List String → String
  | _, [] => "Context not found"
  | i, l :: ls =>
      if containsSub l url then ("Line " ++ natToStr (i + 1) ++ ": " ++ trimStr l)
      else lineContextAux url (i + 1) ls

/-- `_get_line_context`: re-read the document and report the first line
containing the raw target string. -/
def get_line_context (fs : FS) (mdFile : PyPath) (url : String) : String :=
  match readFS fs mdFile with
  | none => "Error reading context"
  | some content => lineContextAux url 0 ((chSplit ('\n') content.data).map (fun l => String.mk l))

/-- A record appended to `research_links` / `sample_project_links` (and,
with `resolved_path` added, to `missing_files`). -/
structure LinkRecord where
  file : String
  link_text : String
  url : String
  line_context : String
deriving DecidableEq, Repr

/-- A record appended to `missing_files`. -/
structure MissingRecord where
  file : String
  link_text : String
  url : String
  resolved_path : String
  line_context : String
deriving DecidableEq, Repr

/-- The `broken_links` dictionary of `analyze_broken_links`. -/
structure BrokenLinks where
  missing_files : List MissingRecord
  broken_anchors : List LinkRecord
  research_links : List LinkRecord
  sample_project_links : List LinkRecord
  malformed_links : List LinkRecord
deriving DecidableEq, Repr

/-- The empty `broken_links` dictionary. -/
def emptyBroken : BrokenLinks := ⟨[], [], [], [], []⟩

/-- Total number of collected entries. -/
def totalCount (b : BrokenLinks) : Nat :=
  b.missing_files.length + b.broken_anchors.length + b.research_links.length
    + b.sample_project_links.length + b.malformed_links.length

/-- The record built for the `research_links` / `sample_project_links`
categories. -/
def mkRecord (fs : FS) (docs md : PyPath) (text url : String) : LinkRecord :=
  { file := relStr md docs
    link_text := text
    url := url
    line_context := get_line_context fs md url }

/-- The record built for the `missing_files` category.  In the source the
`resolved_path` field is `str(target_path) if target_path else
"unresolvable"`; it is only built under `if target_path and ...`, so the
`"unresolvable"` alternative is dead and the field is always
`str(target_path)`. -/
def mkMissing (fs : FS) (docs md : PyPath) (text url : String) (t : PyPath) : MissingRecord :=
  { file := relStr md docs
    link_text := text
    url := url
    resolved_path := pathStr t
    line_context := get_line_context fs md url }

/-- External-prefix test of `_categorize_link`:
`url.startswith(('http', 'https', 'mailto:', '#'))`. -/
def externalPrefix (url : String) : Bool :=
  startsWithStr url ("http") || startsWithStr url ("https")
    || startsWithStr url ("mailto:") || startsWithStr url ("#")

/-- `_categorize_link`: decide which category (if any) a link belongs to
and append the corresponding record to the accumulator. -/
def categorize_link (fs : FS) (docs md : PyPath) (text url : String)
    (b : BrokenLinks) : BrokenLinks :=
  if externalPrefix url then b
  else if containsSub url ("perform_research_research_") then
    { b with research_links := b.research_links ++ [mkRecord fs docs md text url] }
  else if containsSub url ("../../../sample-project/") then
    { b with sample_project_links := b.sample_project_links ++ [mkRecord fs docs md text url] }
  else
    match resolve_link_path md url with
    | none => b
    | some t =>
        if !(pathExists fs t) then
          if !(endsWithStr url (".md")) && pathExists fs (pyWithSuffixMd t) then b
          else { b with missing_files := b.missing_files ++ [mkMissing fs docs md text url t] }
        else b

/-- The markdown files found by `self.docs_dir.rglob("*.md")`, in
traversal order (= order of the file list), with their contents. -/
def mdFiles (fs : FS) (docs : PyPath) : List (List String × String) :=
  fs.files.filter (fun f =>
    docs.parts.isPrefixOf f.1 && (endsWithStr ((f.1.getLast?).getD ("")) (".md")))

/-- One step of the inner loop of `analyze_broken_links`: categorise one
extracted `(text, url)` pair of the document at `mdParts`. -/
def linkStep (fs : FS) (docs : PyPath) (mdParts : List String)
    (b : BrokenLinks) (p : String × String) : BrokenLinks :=
  categorize_link fs docs ⟨mdParts⟩ p.1 p.2 b

/-- Categorise every link of one document (the inner loop of
`analyze_broken_links`). -/
def categorizeFileLinks (fs : FS) (docs : PyPath) (mdParts : List String)
    (content : String) (b : BrokenLinks) : BrokenLinks :=
  (findLinks content.toList).foldl (linkStep fs docs mdParts) b

/-- One step of the outer loop of `analyze_broken_links`: categorise every
link of one file entry. -/
def fileStep (fs : FS) (docs : PyPath) (b : BrokenLinks)
    (f : List String × String) : BrokenLinks :=
  categorizeFileLinks fs docs f.1 f.2 b

/-- `analyze_broken_links`: scan every markdown file under the docs root
and categorise each extracted link. -/
def analyze_broken_links (fs : FS) (docs : PyPath) : BrokenLinks :=
  (mdFiles fs docs).foldl (fileStep fs docs) emptyBroken

/-- `_generate_how_to_template` (verbatim; `filename` is accepted but not
used, as in the source). -/
def howToTemplate (title : String) (_filename : String) : String :=
  "# 🛠️ How-To: " ++ title ++ "\n"
    ++ "\n"
    ++ "**Step-by-step guide for " ++ pyLower title ++ " in the MCP ADR Analysis Server.**\n"
    ++ "\n"
    ++ "**When to use this guide**: [Describe when users should follow this guide]\n"
    ++ "\n"
    ++ "---\n"
    ++ "\n"
    ++ "## 🎯 Quick Start\n"
    ++ "\n"
    ++ "### Prerequisites\n"
    ++ "- MCP ADR Analysis Server installed and configured\n"
    ++ "- [Additional prerequisites]\n"
    ++ "\n"
    ++ "### Basic Usage\n"
    ++ "```bash\n"
    ++ "# Basic command example\n"
    ++ "npm run [command]\n"
    ++ "```\n"
    ++ "\n"
    ++ "---\n"
    ++ "\n"
    ++ "## 📋 Step-by-Step Process\n"
    ++ "\n"
    ++ "### Step 1: [First Step]\n"
    ++ "[Detailed instructions for the first step]\n"
    ++ "\n"
    ++ "### Step 2: [Second Step]\n"
    ++ "[Detailed instructions for the second step]\n"
    ++ "\n"
    ++ "### Step 3: [Third Step]\n"
    ++ "[Detailed instructions for the third step]\n"
    ++ "\n"
    ++ "---\n"
    ++ "\n"
    ++ "## 🔧 Advanced Configuration\n"
    ++ "\n"
    ++ "### [Advanced Topic 1]\n"
    ++ "[Advanced configuration details]\n"
    ++ "\n"
    ++ "### [Advanced Topic 2]\n"
    ++ "[More advanced configuration]\n"
    ++ "\n"
    ++ "---\n"
    ++ "\n"
    ++ "## 🚨 Troubleshooting\n"
    ++ "\n"
    ++ "### Common Issues\n"
    ++ "- **Issue 1**: [Description and solution]\n"
    ++ "- **Issue 2**: [Description and solution]\n"
    ++ "\n"
    ++ "### Error Messages\n"
    ++ "- `Error message`: [Explanation and fix]\n"
    ++ "\n"
    ++ "---\n"
    ++ "\n"
    ++ "## 📚 Related Documentation\n"
    ++ "\n"
    ++ "- **[Related Guide 1](../reference/api-reference.md)** - [Description]\n"
    ++ "- **[Related Guide 2](../how-to-guides/troubleshooting.md)** - [Description]\n"
    ++ "\n"
    ++ "---\n"
    ++ "\n"
    ++ "**Need help with " ++ pyLower title
    ++ "?** → **[File an Issue](https://github.com/tosin2013/mcp-adr-analysis-server/issues)**"
    ++ " or check the **[Troubleshooting Guide](troubleshooting.md)**\n"

/-- `_generate_reference_template` (verbatim; literal braces of the JSON
example written as escapes). -/
def referenceTemplate (title : String) (_filename : String) : String :=
  "# 📚 " ++ title ++ " Reference\n"
    ++ "\n"
    ++ "**Complete reference documentation for " ++ pyLower title
    ++ " in the MCP ADR Analysis Server.**\n"
    ++ "\n"
    ++ "---\n"
    ++ "\n"
    ++ "## 📋 Quick Reference\n"
    ++ "\n"
    ++ "| Item | Description | Usage |\n"
    ++ "|------|-------------|-------|\n"
    ++ "| [Item 1] | [Description] | [Usage example] |\n"
    ++ "| [Item 2] | [Description] | [Usage example] |\n"
    ++ "\n"
    ++ "---\n"
    ++ "\n"
    ++ "## 🔧 Detailed Reference\n"
    ++ "\n"
    ++ "### [Section 1]\n"
    ++ "[Detailed reference information]\n"
    ++ "\n"
    ++ "#### Parameters\n"
    ++ "- `parameter1`: [Description]\n"
    ++ "- `parameter2`: [Description]\n"
    ++ "\n"
    ++ "#### Examples\n"
    ++ "```json\n"
    ++ "\x7b\n"
    ++ "  \"example\": \"configuration\"\n"
    ++ "\x7d\n"
    ++ "```\n"
    ++ "\n"
    ++ "### [Section 2]\n"
    ++ "[More detailed reference information]\n"
    ++ "\n"
    ++ "---\n"
    ++ "\n"
    ++ "## 📊 Configuration Options\n"
    ++ "\n"
    ++ "### [Configuration Category 1]\n"
    ++ "```yaml\n"
    ++ "configuration:\n"
    ++ "  option1: value1\n"
    ++ "  option2: value2\n"
    ++ "```\n"
    ++ "\n"
    ++ "### [Configuration Category 2]\n"
    ++ "[Configuration details]\n"
    ++ "\n"
    ++ "---\n"
    ++ "\n"
    ++ "## 🔗 Related Documentation\n"
    ++ "\n"
    ++ "- **[API Reference](api-reference.md)** - Complete API documentation\n"
    ++ "- **[How-To Guides](../how-to-guides/)** - Step-by-step guides\n"
    ++ "\n"
    ++ "---\n"
    ++ "\n"
    ++ "**Need help with " ++ pyLower title
    ++ "?** → **[File an Issue](https://github.com/tosin2013/mcp-adr-analysis-server/issues)**\n"

/-- `_generate_explanation_template` (verbatim). -/
def explanationTemplate (title : String) (_filename : String) : String :=
  "# 🧠 " ++ title ++ "\n"
    ++ "\n"
    ++ "**Understanding " ++ pyLower title
    ++ " in the MCP ADR Analysis Server architecture and design philosophy.**\n"
    ++ "\n"
    ++ "---\n"
    ++ "\n"
    ++ "## 🎯 Overview\n"
    ++ "\n"
    ++ "[High-level explanation of the concept]\n"
    ++ "\n"
    ++ "### Key Concepts\n"
    ++ "- **Concept 1**: [Explanation]\n"
    ++ "- **Concept 2**: [Explanation]\n"
    ++ "- **Concept 3**: [Explanation]\n"
    ++ "\n"
    ++ "---\n"
    ++ "\n"
    ++ "## 🏗️ Architecture and Design\n"
    ++ "\n"
    ++ "### [Design Principle 1]\n"
    ++ "[Detailed explanation of the design principle]\n"
    ++ "\n"
    ++ "### [Design Principle 2]\n"
    ++ "[Another design principle explanation]\n"
    ++ "\n"
    ++ "---\n"
    ++ "\n"
    ++ "## 🔄 How It Works\n"
    ++ "\n"
    ++ "### [Process 1]\n"
    ++ "[Step-by-step explanation of how something works]\n"
    ++ "\n"
    ++ "### [Process 2]\n"
    ++ "[Another process explanation]\n"
    ++ "\n"
    ++ "---\n"
    ++ "\n"
    ++ "## 💡 Design Decisions\n"
    ++ "\n"
    ++ "### [Decision 1]\n"
    ++ "**Problem**: [What problem this solves]\n"
    ++ "**Solution**: [How it\x27s solved]\n"
    ++ "**Trade-offs**: [What trade-offs were made]\n"
    ++ "\n"
    ++ "### [Decision 2]\n"
    ++ "**Problem**: [Problem description]\n"
    ++ "**Solution**: [Solution description]\n"
    ++ "**Trade-offs**: [Trade-off analysis]\n"
    ++ "\n"
    ++ "---\n"
    ++ "\n"
    ++ "## 🔗 Related Concepts\n"
    ++ "\n"
    ++ "- **[Related Concept 1](../explanation/)** - [Brief description]\n"
    ++ "- **[Related Concept 2](../explanation/)** - [Brief description]\n"
    ++ "\n"
    ++ "---\n"
    ++ "\n"
    ++ "## 📚 Further Reading\n"
    ++ "\n"
    ++ "- **[Implementation Guide](../how-to-guides/)** - How to implement these concepts\n"
    ++ "- **[API Reference](../reference/)** - Technical reference documentation\n"
    ++ "\n"
    ++ "---\n"
    ++ "\n"
    ++ "**Questions about " ++ pyLower title
    ++ "?** → **[Join the Discussion](https://github.com/tosin2013/mcp-adr-analysis-server/discussions)**\n"

/-- `_generate_tutorial_template` (verbatim). -/
def tutorialTemplate (title : String) (_filename : String) : String :=
  "# 🎓 Tutorial: " ++ title ++ "\n"
    ++ "\n"
    ++ "**Learn " ++ pyLower title ++ " through hands-on examples and exercises.**\n"
    ++ "\n"
    ++ "**Prerequisites**: [List prerequisites]\n"
    ++ "**Estimated time**: [Time estimate]\n"
    ++ "**Difficulty**: [Beginner/Intermediate/Advanced]\n"
    ++ "\n"
    ++ "---\n"
    ++ "\n"
    ++ "## 🎯 What You\x27ll Learn\n"
    ++ "\n"
    ++ "By the end of this tutorial, you\x27ll be able to:\n"
    ++ "- [Learning objective 1]\n"
    ++ "- [Learning objective 2]\n"
    ++ "- [Learning objective 3]\n"
    ++ "\n"
    ++ "---\n"
    ++ "\n"
    ++ "## 📋 Tutorial Steps\n"
    ++ "\n"
    ++ "### Step 1: [Setup/Introduction]\n"
    ++ "[Detailed tutorial step with examples]\n"
    ++ "\n"
    ++ "```bash\n"
    ++ "# Example command\n"
    ++ "npm run example\n"
    ++ "```\n"
    ++ "\n"
    ++ "### Step 2: [Main Content]\n"
    ++ "[Next tutorial step]\n"
    ++ "\n"
    ++ "### Step 3: [Advanced Topics]\n"
    ++ "[Advanced tutorial content]\n"
    ++ "\n"
    ++ "---\n"
    ++ "\n"
    ++ "## 🧪 Exercises\n"
    ++ "\n"
    ++ "### Exercise 1: [Exercise Name]\n"
    ++ "**Objective**: [What the exercise teaches]\n"
    ++ "**Instructions**: [Step-by-step instructions]\n"
    ++ "\n"
    ++ "### Exercise 2: [Exercise Name]\n"
    ++ "**Objective**: [Exercise objective]\n"
    ++ "**Instructions**: [Exercise instructions]\n"
    ++ "\n"
    ++ "---\n"
    ++ "\n"
    ++ "## ✅ Summary\n"
    ++ "\n"
    ++ "In this tutorial, you learned:\n"
    ++ "- [Summary point 1]\n"
    ++ "- [Summary point 2]\n"
    ++ "- [Summary point 3]\n"
    ++ "\n"
    ++ "---\n"
    ++ "\n"
    ++ "## 🚀 Next Steps\n"
    ++ "\n"
    ++ "- **[Next Tutorial](../tutorials/)** - [Description]\n"
    ++ "- **[Related How-To Guide](../how-to-guides/)** - [Description]\n"
    ++ "\n"
    ++ "---\n"
    ++ "\n"
    ++ "**Questions about this tutorial?**"
    ++ " → **[File an Issue](https://github.com/tosin2013/mcp-adr-analysis-server/issues)**\n"

/-- `_generate_generic_template` (verbatim). -/
def genericTemplate (title : String) (_filename : String) : String :=
  "# " ++ title ++ "\n"
    ++ "\n"
    ++ "**[Brief description of what this document covers]**\n"
    ++ "\n"
    ++ "---\n"
    ++ "\n"
    ++ "## Overview\n"
    ++ "\n"
    ++ "[Content overview]\n"
    ++ "\n"
    ++ "## [Section 1]\n"
    ++ "\n"
    ++ "[Content for section 1]\n"
    ++ "\n"
    ++ "## [Section 2]\n"
    ++ "\n"
    ++ "[Content for section 2]\n"
    ++ "\n"
    ++ "---\n"
    ++ "\n"
    ++ "## Related Documentation\n"
    ++ "\n"
    ++ "- **[Related Doc 1](../reference/)** - [Description]\n"
    ++ "- **[Related Doc 2](../how-to-guides/)** - [Description]\n"
    ++ "\n"
    ++ "---\n"
    ++ "\n"
    ++ "**Need help?**"
    ++ " → **[File an Issue](https://github.com/tosin2013/mcp-adr-analysis-server/issues)**\n"

/-- `_generate_sample_adr` (verbatim; the ADR number is the part of the
filename before the first `-`). -/
def generate_sample_adr (title filename : String) : String :=
  let adrNumber := (((chSplit ('-') filename.data).map (fun l => String.mk l)).head?).getD ("")
  "# ADR-" ++ adrNumber ++ ": " ++ title ++ "\n"
    ++ "\n"
    ++ "**Status**: Accepted\n"
    ++ "**Date**: 2024-01-15\n"
    ++ "**Deciders**: Architecture Team\n"
    ++ "\n"
    ++ "## Context\n"
    ++ "\n"
    ++ "This is a sample architectural decision record demonstrating the ADR format"
    ++ " and structure used in the MCP ADR Analysis Server project.\n"
    ++ "\n"
    ++ "## Decision\n"
    ++ "\n"
    ++ "We will use this sample ADR to demonstrate:\n"
    ++ "- Proper ADR structure and formatting\n"
    ++ "- Decision documentation best practices\n"
    ++ "- Integration with the MCP ADR Analysis Server\n"
    ++ "\n"
    ++ "## Consequences\n"
    ++ "\n"
    ++ "### Positive\n"
    ++ "- Provides concrete examples for users\n"
    ++ "- Demonstrates ADR best practices\n"
    ++ "- Shows integration with analysis tools\n"
    ++ "\n"
    ++ "### Negative\n"
    ++ "- Requires maintenance to keep examples current\n"
    ++ "- May not reflect all possible ADR variations\n"
    ++ "\n"
    ++ "## Implementation\n"
    ++ "\n"
    ++ "This sample ADR serves as a template and reference for:\n"
    ++ "1. New teams adopting ADRs\n"
    ++ "2. Training and onboarding materials\n"
    ++ "3. Testing ADR analysis tools\n"
    ++ "\n"
    ++ "## Related Decisions\n"
    ++ "\n"
    ++ "- This is a standalone sample decision\n"
    ++ "- Links to other sample ADRs in this directory\n"
    ++ "- Demonstrates cross-referencing between ADRs\n"
    ++ "\n"
    ++ "---\n"
    ++ "\n"
    ++ "*This is a sample ADR created for demonstration purposes in the"
    ++ " MCP ADR Analysis Server project.*\n"

/-- The fixer's mutable state: `docs_dir`, `dry_run`, and the
duplicate-tracking sets.  `created_files`/`updated_files` hold `Path`
values, i.e. un-normalised component lists, exactly like the Python
`set` of `Path` objects (kept as insertion-ordered duplicate-free
lists). -/
structure Fixer where
  docs_dir : PyPath
  dry_run : Bool
  created_files : List (List String)
  updated_files : List (List String)
deriving DecidableEq, Repr

/-- `set.add`. -/
def insertSet (l : List (List String)) (x : List String) : List (List String) :=
  if l.contains x then l else l ++ [x]

/-- `_construct_path_from_url`. -/
def construct_path_from_url (docs : PyPath) (sourceFile url : String) : PyPath :=
  let sourcePath := joinStr docs sourceFile
  if startsWithStr url ("./") then joinStr (parentPath sourcePath) (dropStr url 2)
  else if startsWithStr url ("../") then joinStr (parentPath sourcePath) url
  else joinStr (parentPath sourcePath) url

/-- `_group_missing_files`: group tag of one record (first matching
marker wins). -/
def groupOf (url : String) : String :=
  if containsSub url ("how-to-guides/") then "how_to_guides"
  else if containsSub url ("reference/") then "reference"
  else if containsSub url ("explanation/") then "explanation"
  else if containsSub url ("tutorials/") then "tutorials"
  else "other"

/-- `_group_missing_files` combined with the iteration order of
`fix_missing_files`: the five groups are visited in their dict-insertion
order, each preserving the original record order. -/
def groupedMissing (l : List MissingRecord) : List (String × MissingRecord) :=
  (["how_to_guides", "reference", "explanation", "tutorials", "other"].map
    (fun g => (l.filter (fun r => groupOf r.url == g)).map (fun r => (g, r)))).flatten

/-- `_generate_file_content` (the `file_info` argument of the source is
unused by every template and omitted here). -/
def generate_file_content (target : PyPath) (ftype : String) : String :=
  let filename := pyStem (lastName target)
  let title := pyTitle (replaceChar (replaceChar filename ('-') (' ')) ('_') (' '))
  if ftype == "how_to_guides" then howToTemplate title filename
  else if ftype == "reference" then referenceTemplate title filename
  else if ftype == "explanation" then explanationTemplate title filename
  else if ftype == "tutorials" then tutorialTemplate title filename
  else genericTemplate title filename

/-- `_create_missing_file`.  Mirrored faithfully from the source:
* the duplicate check consults `created_files` with the path as taken
  from the record, BEFORE the `.md`-suffix normalisation below it;
* `mkdir(parents=True, exist_ok=True)` runs before the dry-run check, so
  a dry run still creates missing parent directories;
* `created_files.add` stores the suffix-normalised path, and only on a
  real (non-dry) write;
* `Path` objects are always truthy, so `if not target_path` never fires
  and is not modelled; the write itself cannot fail in the model, so the
  `except` branch returning `False` is not reachable. -/
def create_missing_file (fx : Fixer) (fs : FS) (ftype : String) (rec : MissingRecord) :
    Fixer × FS × Bool :=
  let target0 :=
    if !(rec.resolved_path == "") && !(rec.resolved_path == "unresolvable")
    then parsePath rec.resolved_path
    else construct_path_from_url fx.docs_dir rec.file rec.url
  if fx.created_files.contains target0.parts then (fx, fs, false)
  else
    let target := if pySuffix (lastName target0) == "" then pyWithSuffixMd target0 else target0
    let fs1 := mkdirP fs (parentPath target)
    let content := generate_file_content target ftype
    if fx.dry_run then (fx, fs1, true)
    else
      ({ fx with created_files := insertSet fx.created_files target.parts },
        writeFS fs1 target content, true)

/-- Loop body of `fix_missing_files`. -/
def missingStep (acc : Fixer × FS × Nat) (gr : String × MissingRecord) :
    Fixer × FS × Nat :=
  let r := create_missing_file acc.1 acc.2.1 gr.1 gr.2
  (r.1, r.2.1, acc.2.2 + (if r.2.2 then 1 else 0))

/-- `fix_missing_files`: create a stub for every `missing_files` record,
group by group, counting successes. -/
def fix_missing_files (fx : Fixer) (fs : FS) (missing : List MissingRecord) :
    Fixer × FS × Nat :=
  (groupedMissing missing).foldl missingStep (fx, fs, 0)

/-- Consume `cs` as a literal prefix of the text, returning the rest. -/
def checkLit : List Char → List Char → Option (List Char)
  | [], rest => some rest
  | _ :: _, [] => none
  | c :: cs, d :: ds => if c == d then checkLit cs ds else none

theorem checkLit_length_le :
    ∀ (cs ds r : List Char), checkLit cs ds = some r → r.length ≤ ds.length := by
  intro cs
  induction cs with
  | nil => intro ds r h; simp [checkLit] at h; rw [h]
  | cons c cs ih =>
      intro ds r h
      cases ds with
      | nil => simp [checkLit] at h
      | cons d ds =>
          by_cases hc : (c == d) = true
          · simp [checkLit, hc] at h
            have := ih ds r h
            rw [List.length_cons]
            omega
          · simp [checkLit, hc] at h

/-- One attempt of `re.sub`'s pattern `\[([^\]]*)\]\(<url literal>\)` at
a position whose `[` has just been consumed: the text part up to the
first `]`, then `(`, the exact characters of `url`, then `)`.  Returns
the remaining text after the match. -/
def tryExactLinkAt (url : String) (rest : List Char) : Option (List Char) :=
  match splitAtChar (']') rest with
  | none => none
  | some q =>
      match q.2 with
      | [] => none
      | c2 :: afterPar =>
          if c2 == ('(') then
            match checkLit url.toList afterPar with
            | none => none
            | some rest2 =>
                match rest2 with
                | [] => none
                | c3 :: rest3 => if c3 == (')') then some rest3 else none
          else none

theorem tryExactLinkAt_lt :
    ∀ (url : String) (rest r : List Char),
      tryExactLinkAt url rest = some r → r.length < rest.length := by
  intro url rest r h
  cases hq : splitAtChar (']') rest with
  | none => simp [tryExactLinkAt, hq] at h
  | some q =>
      cases hq2 : q.2 with
      | nil => simp [tryExactLinkAt, hq, hq2] at h
      | cons c2 afterPar =>
          by_cases hc2 : (c2 == ('(')) = true
          · cases hl : checkLit url.data afterPar with
            | none => simp [tryExactLinkAt, hq, hq2, hc2, hl] at h
            | some rest2 =>
                cases hr2 : rest2 with
                | nil => simp [tryExactLinkAt, hq, hq2, hc2, hl, hr2] at h
                | cons c3 rest3 =>
                    by_cases hc3 : (c3 == (')')) = true
                    · simp [tryExactLinkAt, hq, hq2, hc2, hl, hr2, hc3] at h
                      have h1 := splitAtChar_snd_lt (']') rest q.1 q.2 (by simpa using hq)
                      have h2 := checkLit_length_le url.data afterPar rest2 hl
                      have h3 : q.2.length = afterPar.length + 1 := by rw [hq2]; rfl
                      have h4 : rest2.length = rest3.length + 1 := by rw [hr2]; rfl
                      rw [← h]
                      omega
                    · simp [tryExactLinkAt, hq, hq2, hc2, hl, hr2, hc3] at h
          · simp [tryExactLinkAt, hq, hq2, hc2] at h

/-- Fuel-bounded substitution loop (structural recursion; by
`tryExactLinkAt_lt` every recursive call shrinks the text, so
`fuel = length` never runs out). -/
def replaceLinksAux (url repl : String) : Nat → List Char → List Char
  | 0, l => l
  | fuel + 1, l =>
      match l with
      | [] => []
      | c :: rest =>
          if c == ('[') then
            match tryExactLinkAt url rest with
            | some rest3 => repl.data ++ replaceLinksAux url repl fuel rest3
            | none => c :: replaceLinksAux url repl fuel rest
          else c :: replaceLinksAux url repl fuel rest

/-- `re.sub(rf'\[([^\]]*)\]\({re.escape(url)}\)', repl, content)`:
replace every non-overlapping occurrence, scanning left to right; the
replacement text is not rescanned. -/
def replaceLinks (url : String) (repl : String) (l : List Char) : List Char :=
  replaceLinksAux url repl l.length l

/-- `_fix_research_links_in_file`: rewrite every flagged link construct
of one document to the inline TODO marker; write back only when the
content changed.  A read failure (absent file) is the caught-exception
path of the source and yields `False` with no write. -/
def fix_research_links_in_file (fx : Fixer) (fs : FS) (sourceFile : String)
    (links : List LinkRecord) : Fixer × FS × Bool :=
  let filePath := joinStr fx.docs_dir sourceFile
  match readFS fs filePath with
  | none => (fx, fs, false)
  | some content =>
      let content2 := links.foldl
        (fun c l => String.mk (replaceLinks l.url
          ("<!-- TODO: Fix research link: " ++ l.url ++ " -->") c.toList)) content
      if !(content2 == content) then
        if fx.dry_run then (fx, fs, true)
        else
          ({ fx with updated_files := insertSet fx.updated_files filePath.parts },
            writeFS fs filePath content2, true)
      else (fx, fs, false)

/-- First-occurrence deduplication: the key insertion order of the
`files_to_update` dict. -/
def dedupFirst (l : List String) : List String :=
  l.foldl (fun acc x => if acc.contains x then acc else acc ++ [x]) []

/-- Loop body of `fix_research_links`. -/
def researchStep (links : List LinkRecord) (acc : Fixer × FS × Nat) (f : String) :
    Fixer × FS × Nat :=
  let fl := links.filter (fun l => l.file == f)
  let r := fix_research_links_in_file acc.1 acc.2.1 f fl
  (r.1, r.2.1, acc.2.2 + (if r.2.2 then fl.length else 0))

/-- `fix_research_links`: group the records by source document and fix
each document, counting all of a document's links on success. -/
def fix_research_links (fx : Fixer) (fs : FS) (links : List LinkRecord) :
    Fixer × FS × Nat :=
  (dedupFirst (links.map (fun l => l.file))).foldl (researchStep links) (fx, fs, 0)

/-- The fixed stub ADR table of `fix_sample_project_links` (dict
insertion order). -/
def sampleAdrs : List (String × String) :=
  [("001-database-architecture.md", "Database Architecture Decision"),
   ("002-api-authentication.md", "API Authentication Strategy"),
   ("003-legacy-data-migration.md", "Legacy Data Migration Approach")]

/-- The scaffolder's target directory
`docs_dir.parent / "sample-project" / "docs" / "adrs"`. -/
def sampleDir (docs : PyPath) : PyPath :=
  ⟨(parentPath docs).parts ++ ["sample-project", "docs", "adrs"]⟩

/-- Loop body of `fix_sample_project_links`: create one of the fixed ADR
stubs when absent. -/
def sampleStep (fx : Fixer) (sdir : PyPath) (acc : FS × Nat) (p : String × String) :
    FS × Nat :=
  let adrPath : PyPath := ⟨sdir.parts ++ [p.1]⟩
  if !(pathExists acc.1 adrPath) then
    if fx.dry_run then (acc.1, acc.2 + 1)
    else (writeFS acc.1 adrPath (generate_sample_adr p.2 p.1), acc.2 + 1)
  else acc

/-- `fix_sample_project_links`.  Note (mirrored from the source): the
`sample_links` argument is never read by the body — the scaffolder acts
unconditionally, creating any of the three fixed ADR stubs that do not
already exist. -/
def fix_sample_project_links (fx : Fixer) (fs : FS) (_sampleLinks : List LinkRecord) :
    Fixer × FS × Nat :=
  let sdir := sampleDir fx.docs_dir
  let fs0 := if fx.dry_run then fs else mkdirP fs sdir
  let r := sampleAdrs.foldl (sampleStep fx sdir) (fs0, 0)
  (fx, r.1, r.2)

/-- The record returned by `validate_fixes`.  The source's
`remaining_by_category` map is the five list lengths of `remaining`; the
`created_files`/`updated_files` string lists are produced here in
insertion order (Python's set iteration order is arbitrary). -/
structure ValidationReport where
  files_created : Nat
  files_updated : Nat
  remaining_issues : Nat
  remaining : BrokenLinks
  created_files : List String
  updated_files : List String
deriving DecidableEq, Repr

/-- `validate_fixes`: re-analyse and report. -/
def validate_fixes (fx : Fixer) (fs : FS) : ValidationReport :=
  let remaining := analyze_broken_links fs fx.docs_dir
  { files_created := fx.created_files.length
    files_updated := fx.updated_files.length
    remaining_issues := totalCount remaining
    remaining := remaining
    created_files := fx.created_files.map (fun p => pathStr ⟨p⟩)
    updated_files := fx.updated_files.map (fun p => pathStr ⟨p⟩) }

/-- The summary record returned by `run_comprehensive_fix`. -/
structure Summary where
  initial_issues : Nat
  fixes_missing_files : Nat
  fixes_research_links : Nat
  fixes_sample_links : Nat
  total_fixes : Nat
  validation : ValidationReport
  dry_run : Bool
deriving DecidableEq, Repr

/-- `run_comprehensive_fix`, started from a fresh
`DocumentationLinkFixer(docs_dir, dry_run)`.  Returns the summary
together with the resulting filesystem. -/
def run_comprehensive_fix (docs : PyPath) (dry : Bool) (fs : FS) : Summary × FS :=
  let fx0 : Fixer := ⟨docs, dry, [], []⟩
  let broken := analyze_broken_links fs docs
  let r1 := fix_missing_files fx0 fs broken.missing_files
  let r2 := fix_research_links r1.1 r1.2.1 broken.research_links
  let r3 := fix_sample_project_links r2.1 r2.2.1 broken.sample_project_links
  let report := validate_fixes r3.1 r3.2.1
  ({ initial_issues := totalCount broken
     fixes_missing_files := r1.2.2
     fixes_research_links := r2.2.2
     fixes_sample_links := r3.2.2
     total_fixes := r1.2.2 + r2.2.2 + r3.2.2
     validation := report
     dry_run := dry }, r3.2.1)

/-! ### Concrete document trees used to settle the claims -/

/-- The docs root used in the concrete scenarios. -/
def docsP : PyPath := ⟨["docs"]⟩

/-- The spec's end-to-end tree: exactly one document containing the
single link `[x](./missing-page)`. -/
def fsOne : FS := ⟨[(["docs", "a.md"], "[x](./missing-page)")], []⟩

/-- A tree whose only link target is an external URL (all links `ok`). -/
def fsOk : FS := ⟨[(["docs", "index.md"], "[site](https://example.com)")], []⟩

/-- Two links to the same missing target. -/
def fsTwo : FS := ⟨[(["docs", "a.md"], "[x](./missing-page) [y](./missing-page)")], []⟩

/-- One link whose missing target sits in a not-yet-existing
subdirectory. -/
def fsSub : FS := ⟨[(["docs", "a.md"], "[x](./sub/missing)")], []⟩

/-- A tree where `notes.txt` does not exist but `notes.txt.md` (the
resolved path with `.md` appended as an additional suffix) does. -/
def fsTxt : FS := ⟨[(["docs", "a.md"], ""), (["docs", "notes.txt.md"], "")], []⟩

/-- A tree containing the target document both without and with the
canonical extension's replacement. -/
def fsMp : FS := ⟨[(["docs", "a.md"], ""), (["docs", "mp.md"], "")], []⟩

/-- A fixer state whose created-set already holds the suffix-normalised
stub path `docs/missing-page.md`. -/
def fxC8 : Fixer := ⟨docsP, false, [["docs", "missing-page.md"]], []⟩

/-- A `missing_files` record whose resolved path lacks the extension. -/
def recC8 : MissingRecord :=
  ⟨"a.md", "x", "./missing-page", "docs/missing-page", "Line 1: [x](./missing-page)"⟩

/-- A `missing_files` record whose resolved path already carries the
`.md` extension. -/
def recC8md : MissingRecord :=
  ⟨"a.md", "x", "./missing-page.md", "docs/missing-page.md", "Line 1: [x](./missing-page.md)"⟩

/-! ### Shared helper lemmas -/

/-- The resolver's body is total: every branch returns `some`. -/
theorem resolve_link_path_isSome (mdFile : PyPath) (url : String) :
    ∃ t, resolve_link_path mdFile url = some t := by
  unfold resolve_link_path
  split
  · exact ⟨_, rfl⟩
  · split
    · exact ⟨_, rfl⟩
    · exact ⟨_, rfl⟩

theorem append_singleton_ne {α : Type} (l : List α) (x : α) : l ++ [x] ≠ l := by
  intro h
  have := congrArg List.length h
  simp at this

/-! ### C9 -/

/-- C9 counterexample: the Path Resolver does NOT return an absence value
for the empty (the spec's example of an "unusable") target string — it
returns the source document's parent directory. -/
theorem c9_counterexample :
    resolve_link_path ⟨["docs", "a.md"]⟩ "" = some ⟨["docs"]⟩ ∧
    resolve_link_path ⟨["docs", "a.md"]⟩ "" ≠ none := by
  exact ⟨by decide, by decide⟩

/-- C9 (amended): the Path Resolver is a pure function of the source
document path and the target string (it takes no filesystem argument at
all) and it is total: for every target string — including the empty
string — it returns a path, never the absence value. -/
theorem c9_amended :
    ∀ (mdFile : PyPath) (url : String), (resolve_link_path mdFile url).isSome = true := by
  intro mdFile url
  obtain ⟨t, ht⟩ := resolve_link_path_isSome mdFile url
  rw [ht]
  rfl

/-! ### C2 -/

/-- C2 counterexample: for the empty target string (the spec's canonical
unusable target), resolution does not fail, no `missing_file` entry with
resolved path `"unresolvable"` is produced, and the link is treated as
`ok` (it lands in no category) because the resolved parent directory
exists. -/
theorem c2_counterexample :
    resolve_link_path ⟨["docs", "a.md"]⟩ "" ≠ none ∧
    pathExists fsOne ⟨["docs"]⟩ = true ∧
    categorize_link fsOne docsP ⟨["docs", "a.md"]⟩ "x" "" emptyBroken = emptyBroken := by
  exact ⟨by decide, by decide, by decide⟩

/-- C2 (amended): path resolution never fails (the `except` branch of
`_resolve_link_path` is dead code), so the classifier never records a
`missing_file` entry with resolved path `"unresolvable"`: every
`missing_file` entry it appends carries the string of the successfully
resolved path, and classification is a total function (it cannot raise). -/
theorem c2_amended :
    ∀ (fs : FS) (docs md : PyPath) (text url : String) (b : BrokenLinks),
      (∃ t, resolve_link_path md url = some t) ∧
      ((categorize_link fs docs md text url b).missing_files = b.missing_files ∨
        ∃ t, resolve_link_path md url = some t ∧
          (categorize_link fs docs md text url b).missing_files
            = b.missing_files ++ [mkMissing fs docs md text url t]) := by
  intro fs docs md text url b
  refine ⟨resolve_link_path_isSome md url, ?_⟩
  unfold categorize_link
  split
  · left; rfl
  · split
    · left; rfl
    · split
      · left; rfl
      · obtain ⟨t, ht⟩ := resolve_link_path_isSome md url
        simp only [ht]
        split
        · split
          · left; rfl
          · right; exact ⟨t, rfl, rfl⟩
        · left; rfl

/-! ### C7 -/

/-- C7: the classifier checks its rules in a fixed priority with the
first match winning: any target starting with `http`, `https`,
`mailto:` or `#` is `ok` (nothing is recorded) no matter what else the
string contains; with no such prefix, the research marker is checked
before the sample marker, and both before any existence check (neither
marker branch consults the filesystem at all — the conclusion holds for
every `fs`). -/
theorem c7_priority_order :
    (∀ (fs : FS) (docs md : PyPath) (text url : String) (b : BrokenLinks),
      externalPrefix url = true → categorize_link fs docs md text url b = b) ∧
    (∀ (fs : FS) (docs md : PyPath) (text url : String) (b : BrokenLinks),
      externalPrefix url = false →
      containsSub url ("perform_research_research_") = true →
      categorize_link fs docs md text url b =
        { b with research_links := b.research_links ++ [mkRecord fs docs md text url] }) ∧
    (∀ (fs : FS) (docs md : PyPath) (text url : String) (b : BrokenLinks),
      externalPrefix url = false →
      containsSub url ("perform_research_research_") = false →
      containsSub url ("../../../sample-project/") = true →
      categorize_link fs docs md text url b =
        { b with sample_project_links :=
            b.sample_project_links ++ [mkRecord fs docs md text url] }) := by
  refine ⟨?_, ?_, ?_⟩
  · intro fs docs md text url b h
    simp [categorize_link, h]
  · intro fs docs md text url b h1 h2
    simp [categorize_link, h1, h2]
  · intro fs docs md text url b h1 h2 h3
    simp [categorize_link, h1, h2, h3]

/-- C7 witness: concrete instances — an `http` target containing the
research marker is still `ok`; a target containing both markers lands in
`research_links`; a target with only the sample marker lands in
`sample_project_links`. -/
theorem c7_priority_order_witness :
    (externalPrefix ("http://a/perform_research_research_x") = true ∧
      categorize_link fsOne docsP ⟨["docs", "a.md"]⟩ "x"
        ("http://a/perform_research_research_x") emptyBroken = emptyBroken) ∧
    (categorize_link fsOne docsP ⟨["docs", "a.md"]⟩ "x"
        ("perform_research_research_../../../sample-project/x") emptyBroken =
      { emptyBroken with research_links :=
          [mkRecord fsOne docsP ⟨["docs", "a.md"]⟩ "x"
            ("perform_research_research_../../../sample-project/x")] }) ∧
    (categorize_link fsOne docsP ⟨["docs", "a.md"]⟩ "x"
        ("../../../sample-project/x") emptyBroken =
      { emptyBroken with sample_project_links :=
          [mkRecord fsOne docsP ⟨["docs", "a.md"]⟩ "x" ("../../../sample-project/x")] }) := by
  refine ⟨⟨by decide, ?_⟩, ?_, ?_⟩
  · exact c7_priority_order.1 fsOne docsP ⟨["docs", "a.md"]⟩ "x"
      ("http://a/perform_research_research_x") emptyBroken (by decide)
  · exact c7_priority_order.2.1 fsOne docsP ⟨["docs", "a.md"]⟩ "x"
      ("perform_research_research_../../../sample-project/x") emptyBroken
      (by decide) (by decide)
  · exact c7_priority_order.2.2 fsOne docsP ⟨["docs", "a.md"]⟩ "x"
      ("../../../sample-project/x") emptyBroken (by decide) (by decide) (by decide)

/-! ### C10 -/

/-- A successful match attempt always has a non-empty target group. -/
theorem tryLinkAt_snd_ne :
    ∀ (rest : List Char) (t u : String) (rem : List Char),
      tryLinkAt rest = some (t, u, rem) → u ≠ "" := by
  intro rest t u rem h
  cases hq : splitAtChar (']') rest with
  | none => simp [tryLinkAt, hq] at h
  | some q =>
      cases hq2 : q.2 with
      | nil => simp [tryLinkAt, hq, hq2] at h
      | cons c2 afterPar =>
          by_cases hc2 : (c2 == ('(')) = true
          · cases hr : splitAtChar (')') afterPar with
            | none => simp [tryLinkAt, hq, hq2, hc2, hr] at h
            | some r =>
                by_cases he : r.1.isEmpty = true
                · simp [tryLinkAt, hq, hq2, hc2, hr, he] at h
                · simp [tryLinkAt, hq, hq2, hc2, hr, he] at h
                  intro hu
                  rw [hu] at h
                  have hr1 : r.1 = [] := by
                    have := congrArg String.data h.2.1
                    simpa using this
                  rw [hr1] at he
                  simp at he
          · simp [tryLinkAt, hq, hq2, hc2] at h

theorem findLinksAux_snd_ne :
    ∀ (fuel : Nat) (l : List Char) (t u : String),
      (t, u) ∈ findLinksAux fuel l → u ≠ "" := by
  intro fuel
  induction fuel with
  | zero => intro l t u hm; simp [findLinksAux] at hm
  | succ fuel ih =>
      intro l t u hm
      cases l with
      | nil => simp [findLinksAux] at hm
      | cons c rest =>
          by_cases hc : (c == ('[')) = true
          · cases htry : tryLinkAt rest with
            | some trip =>
                obtain ⟨t', u', rem⟩ := trip
                simp only [findLinksAux, hc, htry, if_true, List.mem_cons] at hm
                rcases hm with heq | hmem
                · have h2 := congrArg Prod.snd heq
                  simp at h2
                  rw [h2]
                  exact tryLinkAt_snd_ne rest t' u' rem htry
                · exact ih rem t u hmem
            | none =>
                simp only [findLinksAux, hc, htry, if_true] at hm
                exact ih rest t u hm
          · simp only [findLinksAux] at hm
            rw [if_neg hc] at hm
            exact ih rest t u hm

/-- C10: every link yielded by the extractor has a non-empty target
string — the pattern requires at least one character between the
parentheses, so a construct like `[x]()` is silently never extracted and
the resolver is never invoked on an empty target during a scan. -/
theorem c10_extracted_targets_nonempty :
    ∀ (l : List Char) (t u : String), (t, u) ∈ findLinks l → u ≠ "" := by
  intro l t u hm
  exact findLinksAux_snd_ne l.length l t u hm

/-- C10 witness: `[x](y)` is extracted with its non-empty target, and the
empty-target construct `[x]()` is not extracted at all. -/
theorem c10_extracted_targets_nonempty_witness :
    findLinks ("[x]()").data = [] ∧
    ("x", "y") ∈ findLinks ("[x](y)").data ∧ ("y" : String) ≠ "" := by
  refine ⟨by decide, by decide, ?_⟩
  exact c10_extracted_targets_nonempty ("[x](y)").data "x" "y" (by decide)

/-! ### C6 -/

/-- C6 counterexample: the target `./notes.txt` resolves to
`docs/notes.txt`, which does not exist; `docs/notes.txt.md` (the resolved
path with `.md` appended as an additional suffix) DOES exist, yet the
classifier does not assign `ok` — it records a `missing_file` entry,
because `with_suffix` REPLACES the `.txt` suffix and checks
`docs/notes.md` instead. -/
theorem c6_counterexample :
    resolve_link_path ⟨["docs", "a.md"]⟩ "./notes.txt" = some ⟨["docs", "notes.txt"]⟩ ∧
    pathExists fsTxt ⟨["docs", "notes.txt"]⟩ = false ∧
    pathExists fsTxt ⟨["docs", "notes.txt.md"]⟩ = true ∧
    pyWithSuffixMd ⟨["docs", "notes.txt"]⟩ = ⟨["docs", "notes.md"]⟩ ∧
    (categorize_link fsTxt docsP ⟨["docs", "a.md"]⟩ "x" "./notes.txt" emptyBroken).missing_files.length
      = 1 := by
  exact ⟨by decide, by decide, by decide, by decide, by decide⟩

/-- C6 (amended): for a link in scope of the existence rules whose
resolved path does not exist, the classifier assigns `ok` (no entry in
any category) when the raw target does not end in `.md` and the path
obtained by REPLACING the final suffix with `.md` (`with_suffix`, which
appends only when the name has no suffix) exists. -/
theorem c6_amended :
    ∀ (fs : FS) (docs md : PyPath) (text url : String) (b : BrokenLinks) (t : PyPath),
      externalPrefix url = false →
      containsSub url ("perform_research_research_") = false →
      containsSub url ("../../../sample-project/") = false →
      resolve_link_path md url = some t →
      pathExists fs t = false →
      endsWithStr url (".md") = false →
      pathExists fs (pyWithSuffixMd t) = true →
      categorize_link fs docs md text url b = b := by
  intro fs docs md text url b t h1 h2 h3 ht h5 h6 h7
  simp [categorize_link, h1, h2, h3, ht, h5, h6, h7]

/-- C6 witness: an extension-less target whose `.md` sibling exists is
classified `ok`. -/
theorem c6_amended_witness :
    resolve_link_path ⟨["docs", "a.md"]⟩ "./mp" = some ⟨["docs", "mp"]⟩ ∧
    pathExists fsMp ⟨["docs", "mp"]⟩ = false ∧
    pathExists fsMp (pyWithSuffixMd ⟨["docs", "mp"]⟩) = true ∧
    categorize_link fsMp docsP ⟨["docs", "a.md"]⟩ "x" "./mp" emptyBroken = emptyBroken := by
  refine ⟨by decide, by decide, by decide, ?_⟩
  exact c6_amended fsMp docsP ⟨["docs", "a.md"]⟩ "x" "./mp" emptyBroken ⟨["docs", "mp"]⟩
    (by decide) (by decide) (by decide) (by decide) (by decide) (by decide) (by decide)

/-! ### C8 -/

/-- C8 counterexample: the created-set already contains the record's
FINAL (suffix-normalised) target path `docs/missing-page.md`, yet
`_create_missing_file` is not a no-op returning failure — it proceeds,
writes the file and returns success, because the membership check uses
the PRE-normalisation path `docs/missing-page`.  Consequently a full run
over two links to the same missing target performs two stub writes
(`fixes_applied` counts 2) even though only one distinct file results. -/
theorem c8_counterexample :
    (fxC8.created_files.contains
        (pyWithSuffixMd (parsePath recC8.resolved_path)).parts) = true ∧
    (create_missing_file fxC8 fsOne "other" recC8).2.2 = true ∧
    (create_missing_file fxC8 fsOne "other" recC8).2.1.files.length
      = fsOne.files.length + 1 ∧
    (run_comprehensive_fix docsP false fsTwo).1.fixes_missing_files = 2 ∧
    (run_comprehensive_fix docsP false fsTwo).1.validation.files_created = 1 := by
  exact ⟨by decide, by decide, by decide, by decide, by decide⟩

/-- C8 (amended): the created-set is consulted before any filesystem
write, but with the path as read from the record BEFORE the `.md`-suffix
normalisation; a record whose pre-normalisation target path is already
in the set is a no-op returning failure.  (At-most-once stubbing per
final target path therefore holds only for records whose recorded path
already equals its normalised form.) -/
theorem c8_amended :
    ∀ (fx : Fixer) (fs : FS) (ftype : String) (rec : MissingRecord),
      fx.created_files.contains
        ((if !(rec.resolved_path == "") && !(rec.resolved_path == "unresolvable")
          then parsePath rec.resolved_path
          else construct_path_from_url fx.docs_dir rec.file rec.url).parts) = true →
      create_missing_file fx fs ftype rec = (fx, fs, false) := by
  intro fx fs ftype rec h
  simp only [create_missing_file]
  rw [h]
  simp

/-- C8 witness: a record whose recorded path already carries `.md` and
is in the created-set is skipped. -/
theorem c8_amended_witness :
    (fxC8.created_files.contains (parsePath recC8md.resolved_path).parts) = true ∧
    create_missing_file fxC8 fsOne "other" recC8md = (fxC8, fsOne, false) := by
  refine ⟨by decide, ?_⟩
  exact c8_amended fxC8 fsOne "other" recC8md (by decide)

/-! ### C5 -/

/-- C5 counterexample: in the one-document tree with `[x](./missing-page)`
the single `missing_file` entry records resolved path
`docs/missing-page` — WITHOUT the `.md` extension (normalisation happens
only later, at creation time) — and the post-remediation validation
re-scan reports `remaining_issues = 2`, not `0` (the generic template
written into the stub contains the relative links `../reference/` and
`../how-to-guides/`, which are broken in this minimal tree). -/
theorem c5_counterexample :
    ((analyze_broken_links fsOne docsP).missing_files.map (fun r => r.resolved_path)
      = ["docs/missing-page"]) ∧
    (run_comprehensive_fix docsP false fsOne).1.validation.remaining_issues = 2 := by
  exact ⟨by decide, by decide⟩

/-- C5 (amended): the run over the one-document tree produces exactly one
`missing_file` entry, whose recorded resolved path is `docs/missing-page`
(extension-less); remediation creates `docs/missing-page.md` containing
the generic template whose heading is `# Missing Page`; the validation
re-scan reports `remaining_issues = 2`, the two remaining entries being
the generic template's own relative links `../reference/` and
`../how-to-guides/`. -/
theorem c5_amended :
    (analyze_broken_links fsOne docsP).missing_files.length = 1 ∧
    ((analyze_broken_links fsOne docsP).missing_files.map (fun r => r.resolved_path)
      = ["docs/missing-page"]) ∧
    readFS (run_comprehensive_fix docsP false fsOne).2 ⟨["docs", "missing-page.md"]⟩
      = some (genericTemplate ("Missing Page") ("missing-page")) ∧
    startsWithStr (genericTemplate ("Missing Page") ("missing-page")) ("# Missing Page") = true ∧
    (run_comprehensive_fix docsP false fsOne).1.validation.remaining_issues = 2 ∧
    ((run_comprehensive_fix docsP false fsOne).1.validation.remaining.missing_files.map
        (fun r => r.url) = ["../reference/", "../how-to-guides/"]) := by
  exact ⟨by decide, by decide, by decide, by decide, by decide, by decide⟩

/-! ### C1 (counterexample) -/

/-- C1 counterexample: a tree whose every link is `ok` (the initial
analysis is empty, so in particular the `sample_project_links` list is
empty), yet a full non-dry run mutates the filesystem: the Sample
Scaffolder acts unconditionally, reports 3 sample fixes, and creates the
three sample ADR files outside the docs root. -/
theorem c1_counterexample :
    analyze_broken_links fsOk docsP = emptyBroken ∧
    (run_comprehensive_fix docsP false fsOk).1.fixes_sample_links = 3 ∧
    ((run_comprehensive_fix docsP false fsOk).2.files.map (fun f => f.1)
      = [["docs", "index.md"],
         ["sample-project", "docs", "adrs", "001-database-architecture.md"],
         ["sample-project", "docs", "adrs", "002-api-authentication.md"],
         ["sample-project", "docs", "adrs", "003-legacy-data-migration.md"]]) ∧
    (run_comprehensive_fix docsP false fsOk).2 ≠ fsOk := by
  exact ⟨by decide, by decide, by decide, by decide⟩

/-! ### C3 (counterexample) -/

/-- C3 counterexample: over the same starting tree, the dry run reports
`validation.files_created = 0` while the non-dry run reports `1` (the
created-set is only populated by real writes), so the reported
created/updated counts do NOT agree; moreover a dry run is not write-free:
for a missing target in a not-yet-existing subdirectory it still creates
the parent directory (`mkdir` precedes the dry-run check). -/
theorem c3_counterexample :
    (run_comprehensive_fix docsP true fsOne).1.validation.files_created = 0 ∧
    (run_comprehensive_fix docsP false fsOne).1.validation.files_created = 1 ∧
    fsSub.dirs = [] ∧
    (run_comprehensive_fix docsP true fsSub).2.dirs = [["docs", "sub"]] := by
  exact ⟨by decide, by decide, by decide, by decide⟩

/-! ### C4 (counterexample) -/

/-- C4 counterexample: running the full fix twice in sequence on the
one-document tree creates TWO additional files on the second run (the
first run's generic template introduced the broken links `../reference/`
and `../how-to-guides/`, which the second run stubs), refuting "zero
additional files on the second run". -/
theorem c4_counterexample :
    (run_comprehensive_fix docsP false
        (run_comprehensive_fix docsP false fsOne).2).1.fixes_missing_files = 2 ∧
    (run_comprehensive_fix docsP false
        (run_comprehensive_fix docsP false fsOne).2).1.validation.files_created = 2 := by
  exact ⟨by decide, by decide⟩

/-! ### C3 (amended) -/

theorem mkdirP_files (fs : FS) (p : PyPath) : (mkdirP fs p).files = fs.files := by
  unfold mkdirP
  split
  · rfl
  · rfl

theorem create_missing_file_dry (fx : Fixer) (fs : FS) (ftype : String)
    (rec : MissingRecord) (h : fx.dry_run = true) :
    (create_missing_file fx fs ftype rec).1 = fx ∧
    (create_missing_file fx fs ftype rec).2.1.files = fs.files := by
  unfold create_missing_file
  dsimp only []
  rw [h]
  repeat' split
  all_goals first
    | exact ⟨rfl, rfl⟩
    | exact absurd rfl (by assumption)
    | simp [mkdirP_files]

theorem foldl_missingStep_dry :
    ∀ (l : List (String × MissingRecord)) (fx : Fixer) (fs : FS) (n : Nat),
      fx.dry_run = true →
      (l.foldl missingStep (fx, fs, n)).1 = fx ∧
      (l.foldl missingStep (fx, fs, n)).2.1.files = fs.files := by
  intro l
  induction l with
  | nil => intro fx fs n _; exact ⟨rfl, rfl⟩
  | cons gr l ih =>
      intro fx fs n h
      simp only [List.foldl_cons]
      have hc := create_missing_file_dry fx fs gr.1 gr.2 h
      have hstep : missingStep (fx, fs, n) gr
          = (fx, (create_missing_file fx fs gr.1 gr.2).2.1,
              n + (if (create_missing_file fx fs gr.1 gr.2).2.2 then 1 else 0)) := by
        simp [missingStep, hc.1]
      rw [hstep]
      have hi := ih fx ((create_missing_file fx fs gr.1 gr.2).2.1)
        (n + (if (create_missing_file fx fs gr.1 gr.2).2.2 then 1 else 0)) h
      exact ⟨hi.1, hi.2.trans hc.2⟩

theorem fix_missing_files_dry (fx : Fixer) (fs : FS) (missing : List MissingRecord)
    (h : fx.dry_run = true) :
    (fix_missing_files fx fs missing).1 = fx ∧
    (fix_missing_files fx fs missing).2.1.files = fs.files := by
  unfold fix_missing_files
  exact foldl_missingStep_dry (groupedMissing missing) fx fs 0 h

theorem fix_research_links_in_file_dry (fx : Fixer) (fs : FS) (sourceFile : String)
    (links : List LinkRecord) (h : fx.dry_run = true) :
    (fix_research_links_in_file fx fs sourceFile links).1 = fx ∧
    (fix_research_links_in_file fx fs sourceFile links).2.1 = fs := by
  unfold fix_research_links_in_file
  dsimp only []
  rw [h]
  cases hr : readFS fs (joinStr fx.docs_dir sourceFile) with
  | none => simp [hr]
  | some content =>
      simp only [hr]
      split
      · simp
      · exact ⟨rfl, rfl⟩

theorem foldl_researchStep_dry (links : List LinkRecord) :
    ∀ (l : List String) (fx : Fixer) (fs : FS) (n : Nat),
      fx.dry_run = true →
      (l.foldl (researchStep links) (fx, fs, n)).1 = fx ∧
      (l.foldl (researchStep links) (fx, fs, n)).2.1 = fs := by
  intro l
  induction l with
  | nil => intro fx fs n _; exact ⟨rfl, rfl⟩
  | cons f l ih =>
      intro fx fs n h
      simp only [List.foldl_cons]
      have hc := fix_research_links_in_file_dry fx fs f
        (links.filter (fun x => x.file == f)) h
      have hstep : researchStep links (fx, fs, n) f
          = (fx, fs, n + (if (fix_research_links_in_file fx fs f
              (links.filter (fun x => x.file == f))).2.2
              then (links.filter (fun x => x.file == f)).length else 0)) := by
        simp [researchStep, hc.1, hc.2]
      rw [hstep]
      exact ih fx fs _ h

theorem fix_research_links_dry (fx : Fixer) (fs : FS) (links : List LinkRecord)
    (h : fx.dry_run = true) :
    (fix_research_links fx fs links).1 = fx ∧
    (fix_research_links fx fs links).2.1 = fs := by
  unfold fix_research_links
  exact foldl_researchStep_dry links (dedupFirst (links.map (fun l => l.file))) fx fs 0 h

theorem foldl_sampleStep_dry (fx : Fixer) (sdir : PyPath) (h : fx.dry_run = true) :
    ∀ (adrs : List (String × String)) (acc : FS × Nat),
      (adrs.foldl (sampleStep fx sdir) acc).1 = acc.1 := by
  intro adrs
  induction adrs with
  | nil => intro acc; rfl
  | cons p ps ih =>
      intro acc
      simp only [List.foldl_cons]
      have hstep : (sampleStep fx sdir acc p).1 = acc.1 := by
        unfold sampleStep
        dsimp only []
        rw [h]
        split
        · simp
        · rfl
      have := ih (sampleStep fx sdir acc p)
      rw [this, hstep]

theorem fix_sample_project_links_dry (fx : Fixer) (fs : FS) (links : List LinkRecord)
    (h : fx.dry_run = true) :
    (fix_sample_project_links fx fs links).1 = fx ∧
    (fix_sample_project_links fx fs links).2.1 = fs := by
  unfold fix_sample_project_links
  refine ⟨rfl, ?_⟩
  simp only [h, if_true]
  exact foldl_sampleStep_dry fx (sampleDir fx.docs_dir) h sampleAdrs (fs, 0)

/-- C3 (amended): a dry run never creates nor modifies any FILE — the
final file table equals the starting one — and it reports the intended
per-category fix counts; but the validation report's created/updated
counts are the sizes of the created/updated tracking sets, which are
only populated by real writes, so a dry run always reports
`files_created = files_updated = 0`, NOT the counts of a non-dry run
(and a dry run may still create missing parent directories, since the
`mkdir` in `_create_missing_file` precedes the dry-run check). -/
theorem c3_amended :
    ∀ (docs : PyPath) (fs : FS),
      (run_comprehensive_fix docs true fs).2.files = fs.files ∧
      (run_comprehensive_fix docs true fs).1.validation.files_created = 0 ∧
      (run_comprehensive_fix docs true fs).1.validation.files_updated = 0 ∧
      (run_comprehensive_fix docs true fs).1.dry_run = true := by
  intro docs fs
  unfold run_comprehensive_fix
  have h1 := fix_missing_files_dry ⟨docs, true, [], []⟩ fs
    (analyze_broken_links fs docs).missing_files rfl
  simp only [h1.1]
  have h2 := fix_research_links_dry ⟨docs, true, [], []⟩
    ((fix_missing_files ⟨docs, true, [], []⟩ fs
      (analyze_broken_links fs docs).missing_files).2.1)
    (analyze_broken_links fs docs).research_links rfl
  simp only [h2.1, h2.2]
  have h3 := fix_sample_project_links_dry ⟨docs, true, [], []⟩
    ((fix_missing_files ⟨docs, true, [], []⟩ fs
      (analyze_broken_links fs docs).missing_files).2.1)
    (analyze_broken_links fs docs).sample_project_links rfl
  simp only [h3.1, h3.2]
  refine ⟨h1.2, ?_, ?_, ?_⟩ <;> trivial

/-! ### C4 (amended) -/

/-- A path just written always exists afterwards. -/
theorem pathExists_writeFS_self (fs : FS) (p : PyPath) (c : String) :
    pathExists (writeFS fs p c) p = true := by
  unfold pathExists writeFS setFileKey
  dsimp only []
  by_cases he : (normalizeParts p.parts).isEmpty = true
  · simp [he]
  · by_cases hin : fs.files.any (fun f => f.1 == normalizeParts p.parts) = true
    · rw [if_pos hin]
      rcases List.any_eq_true.mp hin with ⟨f, hf, hfn⟩
      simp only [Bool.or_eq_true, List.any_eq_true]
      refine Or.inl (Or.inl (Or.inl (Or.inr ?_)))
      refine ⟨(normalizeParts p.parts, c), ?_, by simp⟩
      refine List.mem_map.mpr ⟨f, hf, ?_⟩
      rw [if_pos hfn]
    · rw [if_neg hin]
      simp only [Bool.or_eq_true, List.any_eq_true]
      refine Or.inl (Or.inl (Or.inl (Or.inr ?_)))
      refine ⟨(normalizeParts p.parts, c), ?_, by simp⟩
      exact List.mem_append.mpr (Or.inr (by simp))

/-- C4 (amended): once a stub has been created at the suffix-normalised
target of a `missing_file` classification, re-classifying the same link
yields `ok` (nothing is recorded): previously-missing targets are seen
as fixed by the re-scan.  (The side condition excludes the degenerate
file name `.md`, for which suffix normalisation and the classifier's
retry rule diverge; and the claim about the run as a whole fails — run
one's templates introduce new links, see the counterexample.) -/
theorem c4_amended :
    ∀ (fs : FS) (docs md : PyPath) (text url content : String) (b : BrokenLinks) (t : PyPath),
      externalPrefix url = false →
      containsSub url ("perform_research_research_") = false →
      containsSub url ("../../../sample-project/") = false →
      resolve_link_path md url = some t →
      (pySuffix (lastName t) = "" → endsWithStr url (".md") = false) →
      categorize_link
        (writeFS fs (if pySuffix (lastName t) == "" then pyWithSuffixMd t else t) content)
        docs md text url b = b := by
  intro fs docs md text url content b t h1 h2 h3 ht hmd
  by_cases hsuf : (pySuffix (lastName t) == "") = true
  · rw [if_pos hsuf]
    by_cases hex : pathExists (writeFS fs (pyWithSuffixMd t) content) t = true
    · simp [categorize_link, h1, h2, h3, ht, hex]
    · have hex' : pathExists (writeFS fs (pyWithSuffixMd t) content) t = false := by
        simpa using hex
      have hmd' : endsWithStr url (".md") = false := hmd (by simpa using hsuf)
      have hw := pathExists_writeFS_self fs (pyWithSuffixMd t) content
      simp [categorize_link, h1, h2, h3, ht, hex', hmd', hw]
  · rw [if_neg hsuf]
    have hw := pathExists_writeFS_self fs t content
    simp [categorize_link, h1, h2, h3, ht, hw]

/-- C4 witness: the stub written for `[x](./missing-page)` makes the
re-classification of that link record nothing. -/
theorem c4_amended_witness :
    resolve_link_path ⟨["docs", "a.md"]⟩ "./missing-page" = some ⟨["docs", "missing-page"]⟩ ∧
    categorize_link
      (writeFS (⟨[], []⟩ : FS)
        (if pySuffix (lastName ⟨["docs", "missing-page"]⟩) == ""
         then pyWithSuffixMd ⟨["docs", "missing-page"]⟩ else ⟨["docs", "missing-page"]⟩)
        ("stub"))
      docsP ⟨["docs", "a.md"]⟩ "x" "./missing-page" emptyBroken = emptyBroken := by
  refine ⟨by decide, ?_⟩
  exact c4_amended ⟨[], []⟩ docsP ⟨["docs", "a.md"]⟩ "x" "./missing-page" "stub" emptyBroken
    ⟨["docs", "missing-page"]⟩ (by decide) (by decide) (by decide) (by decide)
    (fun _ => by decide)

/-! ### C1 (amended): helper lemmas -/

theorem fsEq {fs : FS} {a : List (List String × String)} {b : List (List String)}
    (h1 : fs.files = a) (h2 : fs.dirs = b) : fs = ⟨a, b⟩ := by
  cases fs
  cases h1
  cases h2
  rfl

theorem files_any_eq_false_of_not_exists (fs : FS) (p : PyPath)
    (h : pathExists fs p = false) :
    fs.files.any (fun f => f.1 == normalizeParts p.parts) = false := by
  unfold pathExists at h
  dsimp only [] at h
  simp only [Bool.or_eq_false_iff] at h
  exact h.1.1.1.2

theorem writeFS_files_append (fs : FS) (p : PyPath) (c : String)
    (h : pathExists fs p = false) :
    (writeFS fs p c).files = fs.files ++ [(normalizeParts p.parts, c)] ∧
    (writeFS fs p c).dirs = fs.dirs := by
  have hany := files_any_eq_false_of_not_exists fs p h
  unfold writeFS setFileKey
  rw [if_neg (by simp [hany])]
  exact ⟨rfl, rfl⟩

theorem mkdirP_decomp (fs : FS) (p : PyPath) :
    (mkdirP fs p).files = fs.files ∧ ∃ D, (mkdirP fs p).dirs = fs.dirs ++ D := by
  unfold mkdirP
  split
  · exact ⟨rfl, ⟨[], by simp⟩⟩
  · exact ⟨rfl, ⟨[normalizeParts p.parts], rfl⟩⟩

theorem sampleFold_decomp (fx : Fixer) (sdir' : PyPath) (hdry : fx.dry_run = false) :
    ∀ (adrs : List (String × String)) (fs : FS) (n : Nat),
      ∃ L, (adrs.foldl (sampleStep fx sdir') (fs, n)).1.files = fs.files ++ L ∧
        (adrs.foldl (sampleStep fx sdir') (fs, n)).1.dirs = fs.dirs ∧
        ∀ x ∈ L, ∃ p, p ∈ adrs ∧ x.1 = normalizeParts (sdir'.parts ++ [p.1])
          ∧ x.2 = generate_sample_adr p.2 p.1 := by
  intro adrs
  induction adrs with
  | nil =>
      intro fs n
      refine ⟨[], by simp, rfl, ?_⟩
      intro x hx
      cases hx
  | cons p ps ih =>
      intro fs n
      simp only [List.foldl_cons]
      by_cases hex : pathExists fs ⟨sdir'.parts ++ [p.1]⟩ = true
      · have hstep : sampleStep fx sdir' (fs, n) p = (fs, n) := by
          unfold sampleStep
          dsimp only []
          rw [hex]
          simp
        rw [hstep]
        rcases ih fs n with ⟨L, h1, h2, h3⟩
        refine ⟨L, h1, h2, ?_⟩
        intro x hx
        exact (h3 x hx).imp (fun q hq => ⟨List.mem_cons_of_mem p hq.1, hq.2⟩)
      · have hexf : pathExists fs ⟨sdir'.parts ++ [p.1]⟩ = false := by simpa using hex
        have hw := writeFS_files_append fs ⟨sdir'.parts ++ [p.1]⟩
          (generate_sample_adr p.2 p.1) hexf
        have hstep : sampleStep fx sdir' (fs, n) p
            = (writeFS fs ⟨sdir'.parts ++ [p.1]⟩ (generate_sample_adr p.2 p.1), n + 1) := by
          unfold sampleStep
          dsimp only []
          rw [hexf, hdry]
          simp
        rw [hstep]
        rcases ih (writeFS fs ⟨sdir'.parts ++ [p.1]⟩ (generate_sample_adr p.2 p.1)) (n + 1)
          with ⟨L, h1, h2, h3⟩
        refine ⟨(normalizeParts (sdir'.parts ++ [p.1]), generate_sample_adr p.2 p.1) :: L,
          ?_, ?_, ?_⟩
        · rw [h1, hw.1]
          simp
        · rw [h2, hw.2]
        · intro x hx
          rcases List.mem_cons.mp hx with rfl | hx2
          · exact ⟨p, List.mem_cons_self p ps, rfl, rfl⟩
          · exact (h3 x hx2).imp (fun q hq => ⟨List.mem_cons_of_mem p hq.1, hq.2⟩)

theorem fix_sample_decomp (fx : Fixer) (fs : FS) (links : List LinkRecord)
    (hdry : fx.dry_run = false) :
    ∃ L D,
      (fix_sample_project_links fx fs links).2.1 = ⟨fs.files ++ L, fs.dirs ++ D⟩ ∧
      ∀ x ∈ L, ∃ p, p ∈ sampleAdrs ∧
        x.1 = normalizeParts ((sampleDir fx.docs_dir).parts ++ [p.1]) ∧
        x.2 = generate_sample_adr p.2 p.1 := by
  unfold fix_sample_project_links
  dsimp only []
  rw [hdry]
  simp only [Bool.false_eq_true, if_false]
  rcases mkdirP_decomp fs (sampleDir fx.docs_dir) with ⟨hf, D0, hd⟩
  rcases sampleFold_decomp fx (sampleDir fx.docs_dir) hdry sampleAdrs
    (mkdirP fs (sampleDir fx.docs_dir)) 0 with ⟨L, h1, h2, h3⟩
  refine ⟨L, D0, ?_, h3⟩
  refine fsEq ?_ ?_
  · rw [h1, hf]
  · rw [h2, hd]

theorem pathExists_append_mono (fs : FS) (L : List (List String × String))
    (D : List (List String)) (p : PyPath)
    (h : pathExists fs p = true) :
    pathExists ⟨fs.files ++ L, fs.dirs ++ D⟩ p = true := by
  unfold pathExists at h ⊢
  dsimp only [] at h ⊢
  simp only [List.any_append, Bool.or_eq_true] at h ⊢
  tauto

theorem categorize_link_unchanged_mono (fs : FS) (L : List (List String × String))
    (D : List (List String)) (docs md : PyPath) (text url : String) (b : BrokenLinks)
    (h : categorize_link fs docs md text url b = b) :
    categorize_link ⟨fs.files ++ L, fs.dirs ++ D⟩ docs md text url b = b := by
  by_cases h1 : externalPrefix url = true
  · simp [categorize_link, h1]
  · have h1f : externalPrefix url = false := by simpa using h1
    by_cases h2 : containsSub url ("perform_research_research_") = true
    · exfalso
      simp only [categorize_link, h1f, h2] at h
      simp at h
      exact append_singleton_ne _ _ (congrArg BrokenLinks.research_links h)
    · have h2f : containsSub url ("perform_research_research_") = false := by simpa using h2
      by_cases h3 : containsSub url ("../../../sample-project/") = true
      · exfalso
        simp only [categorize_link, h1f, h2f, h3] at h
        simp at h
        exact append_singleton_ne _ _ (congrArg BrokenLinks.sample_project_links h)
      · have h3f : containsSub url ("../../../sample-project/") = false := by simpa using h3
        obtain ⟨t, ht⟩ := resolve_link_path_isSome md url
        by_cases hex : pathExists fs t = true
        · have hex' := pathExists_append_mono fs L D t hex
          simp [categorize_link, h1f, h2f, h3f, ht, hex']
        · have hexf : pathExists fs t = false := by simpa using hex
          by_cases hc : (!(endsWithStr url (".md")) && pathExists fs (pyWithSuffixMd t)) = true
          · have hc' : endsWithStr url (".md") = false ∧
                pathExists fs (pyWithSuffixMd t) = true := by simpa using hc
            have hmd := hc'.1
            have hsfx' := pathExists_append_mono fs L D (pyWithSuffixMd t) hc'.2
            by_cases hex2 : pathExists ⟨fs.files ++ L, fs.dirs ++ D⟩ t = true
            · simp [categorize_link, h1f, h2f, h3f, ht, hex2]
            · have hex2f : pathExists ⟨fs.files ++ L, fs.dirs ++ D⟩ t = false := by
                simpa using hex2
              simp [categorize_link, h1f, h2f, h3f, ht, hex2f, hmd, hsfx']
          · exfalso
            have hcf : (!(endsWithStr url (".md")) && pathExists fs (pyWithSuffixMd t))
                = false := by simpa using hc
            simp only [categorize_link, h1f, h2f, h3f, ht, hexf, hcf] at h
            simp at h
            exact append_singleton_ne _ _ (congrArg BrokenLinks.missing_files h)

theorem categorize_link_totalCount_le (fs : FS) (docs md : PyPath) (text url : String)
    (b : BrokenLinks) :
    totalCount b ≤ totalCount (categorize_link fs docs md text url b) := by
  by_cases h1 : externalPrefix url = true
  · simp [categorize_link, h1]
  · have h1f : externalPrefix url = false := by simpa using h1
    by_cases h2 : containsSub url ("perform_research_research_") = true
    · simp [categorize_link, h1f, h2, totalCount]
    · have h2f : containsSub url ("perform_research_research_") = false := by simpa using h2
      by_cases h3 : containsSub url ("../../../sample-project/") = true
      · simp [categorize_link, h1f, h2f, h3, totalCount]
      · have h3f : containsSub url ("../../../sample-project/") = false := by simpa using h3
        obtain ⟨t, ht⟩ := resolve_link_path_isSome md url
        by_cases hex : pathExists fs t = true
        · simp [categorize_link, h1f, h2f, h3f, ht, hex]
        · have hexf : pathExists fs t = false := by simpa using hex
          by_cases hc : (!(endsWithStr url (".md")) && pathExists fs (pyWithSuffixMd t)) = true
          · simp [categorize_link, h1f, h2f, h3f, ht, hexf, hc]
          · have hcf : (!(endsWithStr url (".md")) && pathExists fs (pyWithSuffixMd t))
                = false := by simpa using hc
            simp [categorize_link, h1f, h2f, h3f, ht, hexf, hcf, totalCount]

theorem categorize_link_eq_of_totalCount (fs : FS) (docs md : PyPath) (text url : String)
    (b : BrokenLinks)
    (h : totalCount (categorize_link fs docs md text url b) = totalCount b) :
    categorize_link fs docs md text url b = b := by
  by_cases h1 : externalPrefix url = true
  · simp [categorize_link, h1]
  · have h1f : externalPrefix url = false := by simpa using h1
    by_cases h2 : containsSub url ("perform_research_research_") = true
    · exfalso
      simp [categorize_link, h1f, h2, totalCount] at h
    · have h2f : containsSub url ("perform_research_research_") = false := by simpa using h2
      by_cases h3 : containsSub url ("../../../sample-project/") = true
      · exfalso
        simp [categorize_link, h1f, h2f, h3, totalCount] at h
      · have h3f : containsSub url ("../../../sample-project/") = false := by simpa using h3
        obtain ⟨t, ht⟩ := resolve_link_path_isSome md url
        by_cases hex : pathExists fs t = true
        · simp [categorize_link, h1f, h2f, h3f, ht, hex]
        · have hexf : pathExists fs t = false := by simpa using hex
          by_cases hc : (!(endsWithStr url (".md")) && pathExists fs (pyWithSuffixMd t)) = true
          · simp [categorize_link, h1f, h2f, h3f, ht, hexf, hc]
          · have hcf : (!(endsWithStr url (".md")) && pathExists fs (pyWithSuffixMd t))
                = false := by simpa using hc
            exfalso
            simp [categorize_link, h1f, h2f, h3f, ht, hexf, hcf, totalCount] at h

theorem foldl_totalCount_le {α : Type} (step : BrokenLinks → α → BrokenLinks)
    (hmono : ∀ b x, totalCount b ≤ totalCount (step b x)) :
    ∀ (l : List α) (b : BrokenLinks), totalCount b ≤ totalCount (l.foldl step b) := by
  intro l
  induction l with
  | nil => intro b; exact Nat.le_refl _
  | cons x xs ih => intro b; exact Nat.le_trans (hmono b x) (ih (step b x))

theorem foldl_steps_id {α : Type} (step : BrokenLinks → α → BrokenLinks)
    (hmono : ∀ b x, totalCount b ≤ totalCount (step b x))
    (hrigid : ∀ b x, totalCount (step b x) = totalCount b → step b x = b) :
    ∀ (l : List α) (b : BrokenLinks),
      totalCount (l.foldl step b) = totalCount b →
      (∀ x ∈ l, step b x = b) ∧ l.foldl step b = b := by
  intro l
  induction l with
  | nil =>
      intro b _
      refine ⟨?_, rfl⟩
      intro x hx
      cases hx
  | cons x xs ih =>
      intro b h
      simp only [List.foldl_cons] at h ⊢
      have h1 : totalCount (step b x) = totalCount b := by
        have ha := foldl_totalCount_le step hmono xs (step b x)
        have hb := hmono b x
        omega
      have hstep := hrigid b x h1
      rw [hstep] at h ⊢
      obtain ⟨hall, hfold⟩ := ih b h
      refine ⟨?_, hfold⟩
      intro y hy
      rcases List.mem_cons.mp hy with rfl | hy2
      · exact hstep
      · exact hall y hy2

theorem foldl_id_of_steps {α : Type} (step : BrokenLinks → α → BrokenLinks) :
    ∀ (l : List α) (b : BrokenLinks), (∀ x ∈ l, step b x = b) → l.foldl step b = b := by
  intro l
  induction l with
  | nil => intro b _; rfl
  | cons x xs ih =>
      intro b h
      simp only [List.foldl_cons]
      rw [h x (List.mem_cons_self x xs)]
      exact ih b (fun y hy => h y (List.mem_cons_of_mem x hy))

/-- None of the three sample ADR stubs contains any link construct. -/
theorem sample_adr_no_links :
    ∀ p ∈ sampleAdrs, findLinks (generate_sample_adr p.2 p.1).toList = [] := by decide

/-- Adding files without link constructs (and any directories) to a tree
whose analysis is empty keeps the analysis empty. -/
theorem linkStep_totalCount_le (fs : FS) (docs : PyPath) (mdParts : List String)
    (b : BrokenLinks) (p : String × String) :
    totalCount b ≤ totalCount (linkStep fs docs mdParts b p) :=
  categorize_link_totalCount_le fs docs ⟨mdParts⟩ p.1 p.2 b

theorem linkStep_eq_of_totalCount (fs : FS) (docs : PyPath) (mdParts : List String)
    (b : BrokenLinks) (p : String × String)
    (h : totalCount (linkStep fs docs mdParts b p) = totalCount b) :
    linkStep fs docs mdParts b p = b :=
  categorize_link_eq_of_totalCount fs docs ⟨mdParts⟩ p.1 p.2 b h

theorem linkStep_unchanged_mono (fs : FS) (L : List (List String × String))
    (D : List (List String)) (docs : PyPath) (mdParts : List String)
    (b : BrokenLinks) (p : String × String)
    (h : linkStep fs docs mdParts b p = b) :
    linkStep ⟨fs.files ++ L, fs.dirs ++ D⟩ docs mdParts b p = b :=
  categorize_link_unchanged_mono fs L D docs ⟨mdParts⟩ p.1 p.2 b h

theorem fileStep_totalCount_le (fs : FS) (docs : PyPath) (b : BrokenLinks)
    (f : List String × String) :
    totalCount b ≤ totalCount (fileStep fs docs b f) := by
  unfold fileStep categorizeFileLinks
  exact foldl_totalCount_le (linkStep fs docs f.1) (linkStep_totalCount_le fs docs f.1)
    (findLinks f.2.toList) b

theorem fileStep_eq_of_totalCount (fs : FS) (docs : PyPath) (b : BrokenLinks)
    (f : List String × String)
    (h : totalCount (fileStep fs docs b f) = totalCount b) :
    fileStep fs docs b f = b := by
  unfold fileStep categorizeFileLinks at h ⊢
  exact (foldl_steps_id (linkStep fs docs f.1) (linkStep_totalCount_le fs docs f.1)
    (linkStep_eq_of_totalCount fs docs f.1) (findLinks f.2.toList) b h).2

/-- Adding files without link constructs (and any directories) to a tree
whose analysis is empty keeps the analysis empty. -/
theorem analyze_append_empty (fs : FS) (docs : PyPath)
    (L : List (List String × String)) (D : List (List String))
    (hempty : analyze_broken_links fs docs = emptyBroken)
    (hL : ∀ x ∈ L, findLinks x.2.toList = []) :
    analyze_broken_links ⟨fs.files ++ L, fs.dirs ++ D⟩ docs = emptyBroken := by
  have hmd : mdFiles ⟨fs.files ++ L, fs.dirs ++ D⟩ docs
      = mdFiles fs docs ++ L.filter (fun f =>
          docs.parts.isPrefixOf f.1 && (endsWithStr ((f.1.getLast?).getD ("")) (".md"))) := by
    simp [mdFiles, List.filter_append]
  unfold analyze_broken_links at hempty
  have hTot : totalCount ((mdFiles fs docs).foldl (fileStep fs docs) emptyBroken)
      = totalCount emptyBroken := by rw [hempty]
  have hFiles := foldl_steps_id (fileStep fs docs) (fileStep_totalCount_le fs docs)
    (fileStep_eq_of_totalCount fs docs) (mdFiles fs docs) emptyBroken hTot
  have hFiles2 : ∀ f ∈ mdFiles fs docs,
      fileStep ⟨fs.files ++ L, fs.dirs ++ D⟩ docs emptyBroken f = emptyBroken := by
    intro f hf
    have hfile := hFiles.1 f hf
    have hTotF : totalCount (fileStep fs docs emptyBroken f) = totalCount emptyBroken := by
      rw [hfile]
    unfold fileStep categorizeFileLinks at hTotF
    have hlinks := foldl_steps_id (linkStep fs docs f.1) (linkStep_totalCount_le fs docs f.1)
      (linkStep_eq_of_totalCount fs docs f.1) (findLinks f.2.toList) emptyBroken hTotF
    unfold fileStep categorizeFileLinks
    apply foldl_id_of_steps
    intro p hp
    exact linkStep_unchanged_mono fs L D docs f.1 emptyBroken p (hlinks.1 p hp)
  have hNew : ∀ f ∈ L.filter (fun f =>
      docs.parts.isPrefixOf f.1 && (endsWithStr ((f.1.getLast?).getD ("")) (".md"))),
      fileStep ⟨fs.files ++ L, fs.dirs ++ D⟩ docs emptyBroken f = emptyBroken := by
    intro f hf
    have hmem := List.mem_of_mem_filter hf
    unfold fileStep categorizeFileLinks
    rw [hL f hmem]
    rfl
  unfold analyze_broken_links
  rw [hmd, List.foldl_append]
  have h1 : (mdFiles fs docs).foldl (fileStep ⟨fs.files ++ L, fs.dirs ++ D⟩ docs)
      emptyBroken = emptyBroken :=
    foldl_id_of_steps _ (mdFiles fs docs) emptyBroken hFiles2
  rw [h1]
  exact foldl_id_of_steps _ _ emptyBroken hNew

/-- C1 (amended): over a tree in which every link is `ok` (the analysis
is empty, so in particular the `sample_project_link` list is empty), a
full non-dry run reports zero missing-file and research fixes, the
validation re-scan again reports zero entries in every category, and no
document is touched — EXCEPT that the Sample Scaffolder runs
unconditionally: the only files added are (at most three) sample ADR
stubs under the fixed `sample-project/docs/adrs` directory next to the
docs root. -/
theorem c1_amended :
    ∀ (docs : PyPath) (fs : FS),
      analyze_broken_links fs docs = emptyBroken →
      (run_comprehensive_fix docs false fs).1.fixes_missing_files = 0 ∧
      (run_comprehensive_fix docs false fs).1.fixes_research_links = 0 ∧
      (run_comprehensive_fix docs false fs).1.validation.remaining = emptyBroken ∧
      (run_comprehensive_fix docs false fs).1.validation.remaining_issues = 0 ∧
      ∃ L, (run_comprehensive_fix docs false fs).2.files = fs.files ++ L ∧
        ∀ x ∈ L, ∃ p, p ∈ sampleAdrs ∧
          x.1 = normalizeParts ((sampleDir docs).parts ++ [p.1]) ∧
          x.2 = generate_sample_adr p.2 p.1 := by
  intro docs fs hempty
  unfold run_comprehensive_fix
  dsimp only []
  rw [hempty]
  have hm : fix_missing_files (⟨docs, false, [], []⟩ : Fixer) fs emptyBroken.missing_files
      = (⟨docs, false, [], []⟩, fs, 0) := rfl
  have hr : fix_research_links (⟨docs, false, [], []⟩ : Fixer) fs emptyBroken.research_links
      = (⟨docs, false, [], []⟩, fs, 0) := rfl
  rcases fix_sample_decomp ⟨docs, false, [], []⟩ fs emptyBroken.sample_project_links rfl
    with ⟨L, D, hfs3, hmemL⟩
  have hs1 : (fix_sample_project_links (⟨docs, false, [], []⟩ : Fixer) fs
      emptyBroken.sample_project_links).1 = (⟨docs, false, [], []⟩ : Fixer) := rfl
  have hLempty : ∀ x ∈ L, findLinks x.2.toList = [] := by
    intro x hx
    rcases hmemL x hx with ⟨p, hp, _, hcont⟩
    rw [hcont]
    exact sample_adr_no_links p hp
  have hAn := analyze_append_empty fs docs L D hempty hLempty
  simp only [hm, hr, hs1, hfs3, validate_fixes, hAn]
  refine ⟨?_, ?_, ?_, ?_, L, ?_, ?_⟩ <;> trivial

/-- C1 witness: the all-`ok` one-document tree satisfies the amended
claim's hypothesis and conclusions. -/
theorem c1_amended_witness :
    analyze_broken_links fsOk docsP = emptyBroken ∧
    ((run_comprehensive_fix docsP false fsOk).1.fixes_missing_files = 0 ∧
      (run_comprehensive_fix docsP false fsOk).1.fixes_research_links = 0 ∧
      (run_comprehensive_fix docsP false fsOk).1.validation.remaining = emptyBroken ∧
      (run_comprehensive_fix docsP false fsOk).1.validation.remaining_issues = 0 ∧
      ∃ L, (run_comprehensive_fix docsP false fsOk).2.files = fsOk.files ++ L ∧
        ∀ x ∈ L, ∃ p, p ∈ sampleAdrs ∧
          x.1 = normalizeParts ((sampleDir docsP).parts ++ [p.1]) ∧
          x.2 = generate_sample_adr p.2 p.1) := by
  refine ⟨by decide, ?_⟩
  exact c1_amended docsP fsOk (by decide)
